import Mathlib

/-
Verification of the terminal subsystem of crow-mcp
(src/crow-mcp/src/crow_mcp/terminal/{backend,session,constants,main}.py).

Text is modelled as List Char, time as whole seconds (Nat), and the
polling loop of TerminalSession._execute_command as a function consuming a
finite list of observations, one per loop iteration, each carrying the
clock value and the backend screen snapshot read at that iteration.
Side effects against the backend are reified as an explicit effect trace.
-/

namespace CrowTerminal

/-- Python str whitespace test restricted to ASCII, as used by str.strip,
str.lstrip and str.rstrip on the text this subsystem handles. -/
def isSpaceChar (c : Char) : Bool :=
  c == ' ' || c == '\t' || c == '\n' || c == '\r' || c == '\x0b' || c == '\x0c'

/-- Python str.lstrip on List Char. -/
def lstripChars (s : List Char) : List Char := s.dropWhile isSpaceChar

/-- Python str.rstrip on List Char. -/
def rstripChars (s : List Char) : List Char := (s.reverse.dropWhile isSpaceChar).reverse

/-- Python str.strip on List Char. -/
def stripChars (s : List Char) : List Char := rstripChars (lstripChars s)

/-- Python str.removeprefix: drop p from the front of s when p is a prefix,
otherwise return s unchanged. -/
def removePre (p s : List Char) : List Char :=
  if p.isPrefixOf s then s.drop p.length else s

/-- Substring occurrence test: containsSub sub s is true when sub occurs
contiguously inside s (Python sub in s). -/
def containsSub (sub : List Char) : List Char → Bool
  | [] => sub.isEmpty
  | c :: rest => sub.isPrefixOf (c :: rest) || containsSub sub rest

/-- Python s.replace(old, new) restricted to nonempty old, written with
explicit fuel so that it evaluates by kernel reduction; the fuel
s.length is enough because each step consumes at least one character. -/
def replaceAllFuel (old new : List Char) : Nat → List Char → List Char
  | 0, s => s
  | _ + 1, [] => []
  | fuel + 1, c :: rest =>
    if !old.isEmpty && old.isPrefixOf (c :: rest) then
      new ++ replaceAllFuel old new fuel ((c :: rest).drop old.length)
    else
      c :: replaceAllFuel old new fuel rest

/-- Python s.replace(old, new), all occurrences, left to right. -/
def replaceAll (s old new : List Char) : List Char :=
  replaceAllFuel old new s.length s

/- ===== constants.py ===== -/

/-- constants.py: CMD_OUTPUT_PS1_BEGIN. -/
def CMD_OUTPUT_PS1_BEGIN : List Char := "\n###PS1JSON###\n".data

/-- constants.py: CMD_OUTPUT_PS1_END. -/
def CMD_OUTPUT_PS1_END : List Char := "\n###PS1END###".data

/-- The begin marker as it appears in CMD_OUTPUT_METADATA_PS1_REGEX, namely
CMD_OUTPUT_PS1_BEGIN.strip(). -/
def ps1BeginStripped : List Char := stripChars CMD_OUTPUT_PS1_BEGIN

/-- The end marker as it appears in CMD_OUTPUT_METADATA_PS1_REGEX, namely
CMD_OUTPUT_PS1_END.strip(). -/
def ps1EndStripped : List Char := stripChars CMD_OUTPUT_PS1_END

/-- constants.py: NO_CHANGE_TIMEOUT_SECONDS, the default soft timeout. -/
def NO_CHANGE_TIMEOUT_SECONDS : Nat := 30

/-- constants.py: HISTORY_LIMIT, the retention capacity of the backend
output buffer before the extra 50 slack chunks. -/
def HISTORY_LIMIT : Nat := 10000

/-- constants.py: TIMEOUT_MESSAGE_TEMPLATE, appended on a soft timeout. -/
def TIMEOUT_MESSAGE_TEMPLATE : List Char :=
  ("The command is still running. You can:\n- Send empty command \x27\x27 to continue waiting\n- Send \"C-c\" to interrupt\n- Use a longer timeout parameter\n").data

/- ===== marker matching (CMD_OUTPUT_METADATA_PS1_REGEX semantics) ===== -/

/-- One regex match of a marker block: group 0 (the whole block) and
group 1 (the payload between the two markers). -/
structure Ps1Match where
  full : List Char
  payload : List Char
deriving DecidableEq, Repr

/-- Lazy scan for the payload of a marker block, starting just after the
begin marker: consume characters until the end marker starts (the lazy
quantifier closes at the first end marker), failing if another begin
marker starts first (the negative lookahead of the regex). Returns the
payload and the text after the end marker. -/
def scanPayload : List Char → Option (List Char × List Char)
  | [] => none
  | c :: rest =>
    if ps1EndStripped.isPrefixOf (c :: rest) then
      some ([], (c :: rest).drop ps1EndStripped.length)
    else if ps1BeginStripped.isPrefixOf (c :: rest) then
      none
    else
      match scanPayload rest with
      | some (p, r) => some (c :: p, r)
      | none => none

/-- Left-to-right scan for non-overlapping matches of
CMD_OUTPUT_METADATA_PS1_REGEX: at each position that begins a line
(MULTILINE anchor) and starts with the begin marker, attempt a lazy
payload scan up to the end marker; on success resume after the match, on
failure advance one character as re.finditer does. The fuel argument
bounds recursion; text.length is enough since every step consumes at
least one character. -/
def scanMatchesFuel : Nat → Bool → List Char → List Ps1Match
  | 0, _, _ => []
  | _ + 1, _, [] => []
  | fuel + 1, atLineStart, c :: rest =>
    if atLineStart && ps1BeginStripped.isPrefixOf (c :: rest) then
      match scanPayload ((c :: rest).drop ps1BeginStripped.length) with
      | some (payload, after) =>
        let full := ps1BeginStripped ++ payload ++ ps1EndStripped
        { full := full, payload := payload } ::
          scanMatchesFuel fuel (full.getLastD ' ' == '\n') after
      | none => scanMatchesFuel fuel (c == '\n') rest
    else
      scanMatchesFuel fuel (c == '\n') rest

/-- Modelled from the spec: the module metadata.py (class
CmdOutputMetadata) is not under src, only its import sites are. Per the
spec, findMatches returns every non-overlapping occurrence of a complete
marker block in the text, in order, and zero matches means the command
has not yet completed. The block grammar is taken from the source
CMD_OUTPUT_METADATA_PS1_REGEX in constants.py, whose finditer semantics
scanMatchesFuel implements. -/
def matches_ps1_metadata (text : List Char) : List Ps1Match :=
  scanMatchesFuel text.length true text

/- ===== metadata parsing (spec-modelled) ===== -/

/-- Structured result parsed from one marker block. -/
structure CmdOutputMetadata where
  exit_code : Int
  working_dir : Option (List Char)
  py_interpreter : Option (List Char)
deriving DecidableEq, Repr

/-- Suffix of the text just after the first occurrence of key, if any. -/
def afterKey (key : List Char) : List Char → Option (List Char)
  | [] => none
  | c :: rest =>
    if key.isPrefixOf (c :: rest) then some ((c :: rest).drop key.length)
    else afterKey key rest

/-- Decimal digits to Nat. -/
def digitsToNat (l : List Char) : Nat :=
  l.foldl (fun a c => a * 10 + (c.toNat - 48)) 0

/-- Parse an integer field value following a JSON-like key. -/
def parseIntField (payload key : List Char) : Option Int :=
  match afterKey key payload with
  | none => none
  | some r =>
    let r := r.dropWhile (fun c => c == ':' || c == ' ')
    match r with
    | '-' :: ds =>
      let digits := ds.takeWhile Char.isDigit
      if digits.isEmpty then none else some (-(digitsToNat digits : Int))
    | ds =>
      let digits := ds.takeWhile Char.isDigit
      if digits.isEmpty then none else some ((digitsToNat digits : Int))

/-- Parse a quoted string field value following a JSON-like key. -/
def parseStrField (payload key : List Char) : Option (List Char) :=
  match afterKey key payload with
  | none => none
  | some r =>
    match r.dropWhile (fun c => c == ':' || c == ' ') with
    | '"' :: rest => some (rest.takeWhile (fun c => c != '"'))
    | _ => none

/-- Key of the exit code field in the marker payload. -/
def exit_code_key : List Char := "\"exit_code\"".data

/-- Key of the working directory field in the marker payload. -/
def working_dir_key : List Char := "\"working_dir\"".data

/-- Key of the interpreter path field in the marker payload. -/
def py_interpreter_key : List Char := "\"py_interpreter\"".data

/-- Modelled from the spec: metadata.py (CmdOutputMetadata.from_ps1_match)
is not under src. Per the spec, parse decodes one matched block into
Metadata carrying the exit status, the current working directory and the
path of the active interpreter when available, failing soft on malformed
payloads. The payload is modelled as JSON-like key and value text; a
missing or malformed exit code falls back to -1 and the two path fields
to absent. -/
def from_ps1_match (m : Ps1Match) : CmdOutputMetadata :=
  { exit_code := (parseIntField m.payload exit_code_key).getD (-1)
    working_dir := parseStrField m.payload working_dir_key
    py_interpreter := parseStrField m.payload py_interpreter_key }

/- ===== session.py: TerminalSession ===== -/

/-- Observable state of a TerminalSession: the initial working directory,
the soft timeout, the lifecycle flags (inited and closed stand for the
source attributes with the same role) and the last raw output snapshot
prev_output. -/
structure SessionState where
  work_dir : List Char
  no_change_timeout_seconds : Nat
  inited : Bool
  closed : Bool
  prev_output : List Char
deriving DecidableEq, Repr

/-- The dict returned by TerminalSession methods: output text, exit code,
and the optional working_dir and py_interpreter entries (none stands for
an absent key or a None value, both falsy downstream in main.py). -/
structure ExecResult where
  output : List Char
  exit_code : Int
  working_dir : Option (List Char)
  py_interpreter : Option (List Char)
deriving DecidableEq, Repr

/-- Side effects the session performs against the backend. -/
inductive Effect where
  | clear_screen
  | send_keys (text : List Char) (enter : Bool)
  | read_screen
  | interruptSig
deriving DecidableEq, Repr

/-- One iteration of the polling loop observes the clock and the screen
snapshot returned by backend.read_screen. -/
structure PollObs where
  time : Nat
  screen : List Char
deriving DecidableEq, Repr

/-- Result of the normal command path. nameError records that the 20th
consecutive poll without a completion match evaluates the name
CMD_OUTPUT_PS1_BEGIN at session.py line 209, which session.py never
imports, so the loop raises NameError there. ranOut means the finite
observation list ended while the loop would have kept polling. -/
inductive CmdOutcome where
  | completed (r : ExecResult)
  | hardTimeout (r : ExecResult)
  | softTimeout (r : ExecResult)
  | nameError
  | ranOut
deriving DecidableEq, Repr

/-- Result of execute: a raised RuntimeError, an immediate dict from the
special key or raw input paths, or the outcome of the polling loop. -/
inductive ExecOutcome where
  | error (msg : List Char)
  | immediate (r : ExecResult)
  | cmd (c : CmdOutcome)
deriving DecidableEq, Repr

/-- TerminalSession._is_special_key: the stripped command starts with C-
and is exactly three characters long. -/
def is_special_key (command : List Char) : Bool :=
  let cmd := stripChars command
  ("C-".data).isPrefixOf cmd && cmd.length == 3

/-- The stripped, uppercased command compared against the known special
keys in _handle_special_key. -/
def upperStrip (command : List Char) : List Char :=
  (stripChars command).map Char.toUpper

/-- TerminalSession._handle_special_key. The parameter d is the boolean
the backend interrupt call returns (whether the signal was deliverable);
the source discards it, so no branch reads it. -/
def handle_special_key (s : SessionState) ( _d : Bool) (command : List Char) :
    ExecResult × List Effect :=
  let key := upperStrip command
  if key = "C-C".data then
    ({ output := "Process interrupted (Ctrl+C)".data, exit_code := 130,
       working_dir := some s.work_dir, py_interpreter := none }, [.interruptSig])
  else if key = "C-Z".data then
    ({ output := "Process suspended (Ctrl+Z)".data, exit_code := 147,
       working_dir := some s.work_dir, py_interpreter := none }, [.send_keys "\x1a".data false])
  else if key = "C-D".data then
    ({ output := "EOF sent (Ctrl+D)".data, exit_code := 0,
       working_dir := some s.work_dir, py_interpreter := none }, [.send_keys "\x04".data false])
  else
    ({ output := "Unknown special key: ".data ++ command, exit_code := 1,
       working_dir := some s.work_dir, py_interpreter := none }, [])

/-- TerminalSession._handle_input: forward the text as raw keystrokes and
return a still-running sentinel result. -/
def handle_input (s : SessionState) (command : List Char) :
    ExecResult × List Effect :=
  ({ output := "Input sent: ".data ++ command, exit_code := -1,
     working_dir := some s.work_dir, py_interpreter := none },
   [.send_keys command true])

/-- TerminalSession._get_command_output: drop the previously seen raw
prefix when continuing, record the new snapshot in prev_output, then
strip the echoed command text and surrounding whitespace. The metadata
prefix assignment of the source is omitted because nothing downstream
reads it. -/
def get_command_output (s : SessionState) (command raw_output : List Char) :
    List Char × SessionState :=
  let output := if s.prev_output ≠ [] then removePre s.prev_output raw_output else raw_output
  let s2 := { s with prev_output := raw_output }
  (rstripChars (lstripChars (removePre (lstripChars command) (lstripChars output))), s2)

/-- TerminalSession._build_result: parse the last marker block, clean the
output, delete every marker block from it, and return a dict holding only
the output and the exit code. -/
def build_result (s : SessionState) (command raw_output : List Char)
    (ms : List Ps1Match) : ExecResult × SessionState :=
  let metadata := from_ps1_match (ms.getLastD ⟨[], []⟩)
  let os := get_command_output s command raw_output
  let output := ms.foldl (fun acc m => replaceAll acc m.full []) os.1
  ({ output := stripChars output, exit_code := metadata.exit_code,
     working_dir := none, py_interpreter := none }, os.2)

/-- The hard timeout test of the polling loop: an explicit timeout was
supplied and at least that many seconds elapsed since the send. -/
def hardHit : Option Nat → Nat → Bool
  | some t, elapsed => t ≤ elapsed
  | none, _ => false

/-- The hard timeout output suffix, from session.py line 218. -/
def timed_out_note (t : Nat) : List Char :=
  "\n\n[Command timed out after ".data ++ (toString t).data ++ "s]".data

/-- The polling loop of TerminalSession._execute_command, one recursive
step per observation. Branch order follows the source: completion match,
then the every-20th-poll debug block whose unimported name raises
NameError, then the hard timeout, then the output change bookkeeping and
the soft timeout. -/
def execute_command_loop (s : SessionState) (command : List Char)
    (timeout : Option Nat) (startTime lastChangeTime : Nat)
    (lastOutput : List Char) (pollCount : Nat) :
    List PollObs → CmdOutcome × SessionState × List Effect
  | [] => (.ranOut, s, [])
  | o :: rest =>
    let pc := pollCount + 1
    let elapsed := o.time - startTime
    let output := o.screen
    let ms := matches_ps1_metadata output
    if ms ≠ [] then
      let br := build_result s command output ms
      (.completed br.1, br.2, [.read_screen])
    else if pc % 20 == 0 then
      (.nameError, s, [.read_screen])
    else if hardHit timeout elapsed then
      (.hardTimeout { output := output ++ timed_out_note (timeout.getD 0),
                      exit_code := -1, working_dir := some s.work_dir,
                      py_interpreter := none }, s, [.read_screen])
    else if output ≠ lastOutput then
      let r := execute_command_loop s command timeout startTime o.time output pc rest
      (r.1, r.2.1, .read_screen :: r.2.2)
    else if s.no_change_timeout_seconds ≤ o.time - lastChangeTime then
      (.softTimeout { output := output ++ "\n\n".data ++ TIMEOUT_MESSAGE_TEMPLATE,
                      exit_code := -1, working_dir := some s.work_dir,
                      py_interpreter := none }, s, [.read_screen])
    else
      let r := execute_command_loop s command timeout startTime lastChangeTime lastOutput pc rest
      (r.1, r.2.1, .read_screen :: r.2.2)

/-- TerminalSession._execute_command: clear the buffer, send the command
with a trailing Enter, then poll. startTime is the clock value at the
send; the loop starts with last_change_time = startTime, empty
last_output and poll_count 0 as in the source. -/
def execute_command (s : SessionState) (command : List Char)
    (timeout : Option Nat) (startTime : Nat) (obs : List PollObs) :
    CmdOutcome × SessionState × List Effect :=
  let r := execute_command_loop s command timeout startTime startTime [] 0 obs
  (r.1, r.2.1, .clear_screen :: .send_keys command true :: r.2.2)

/-- TerminalSession.execute: reject dead sessions first, then dispatch to
the special key, raw input or normal command paths, in source order. -/
def execute (s : SessionState) (d : Bool) (command : List Char)
    (is_input : Bool) (timeout : Option Nat) (startTime : Nat)
    (obs : List PollObs) : ExecOutcome × SessionState × List Effect :=
  if s.inited = false then
    (.error "Terminal session not initialized".data, s, [])
  else if s.closed = true then
    (.error "Terminal session is closed".data, s, [])
  else if is_special_key command then
    let r := handle_special_key s d command
    (.immediate r.1, s, r.2)
  else if is_input then
    let r := handle_input s command
    (.immediate r.1, s, r.2)
  else
    let r := execute_command s command timeout startTime obs
    (.cmd r.1, r.2)

/- ===== main.py: result formatting of the terminal tool ===== -/

/-- The status line main.py appends after the optional directory and
interpreter lines: completed or failed for a real exit code, else the
still-running soft timeout line. -/
def exit_status_line (exit_code : Int) : List Char :=
  if exit_code ≠ -1 then
    if exit_code = 0 then
      "\n[Command completed with exit code ".data ++ (toString exit_code).data ++ "]".data
    else
      "\n[Command failed with exit code ".data ++ (toString exit_code).data ++ "]".data
  else
    "\n[Process still running (soft timeout)]".data

/-- The formatting block of the terminal tool in main.py lines 111 to 129:
append a working directory line and an interpreter line when the
corresponding dict entries are present and truthy, then the status line. -/
def format_result (r : ExecResult) : List Char :=
  let o := r.output
  let o := match r.working_dir with
    | some dir => if dir.isEmpty then o
                  else o ++ "\n[Current working directory: ".data ++ dir ++ "]".data
    | none => o
  let o := match r.py_interpreter with
    | some p => if p.isEmpty then o
                else o ++ "\n[Python interpreter: ".data ++ p ++ "]".data
    | none => o
  o ++ exit_status_line r.exit_code

/- ===== backend.py: SubprocessTerminal output buffer ===== -/

/-- Capacity of the backend output buffer: the deque in
SubprocessTerminal has maxlen HISTORY_LIMIT + 50. -/
def BUFFER_CAP : Nat := HISTORY_LIMIT + 50

/-- Appending to a deque with a maxlen keeps only the most recent
BUFFER_CAP chunks, discarding from the opposite end. -/
def deque_append (buf : List (List Char)) (chunk : List Char) :
    List (List Char) :=
  let b := buf ++ [chunk]
  if BUFFER_CAP < b.length then b.drop (b.length - BUFFER_CAP) else b

/-- The operations touching the buffer: the reader worker appends a
decoded chunk, read_screen reads without mutating, clear_screen clears. -/
inductive BufOp where
  | append (chunk : List Char)
  | read
  | clear
deriving DecidableEq, Repr

/-- Effect of one buffer operation on the buffer contents. -/
def apply_buf_op (buf : List (List Char)) : BufOp → List (List Char)
  | .append chunk => deque_append buf chunk
  | .read => buf
  | .clear => []

/-- Effect of a sequence of buffer operations. -/
def apply_buf_ops (buf : List (List Char)) (ops : List BufOp) :
    List (List Char) :=
  ops.foldl apply_buf_op buf

/- ===== backend.py: SubprocessTerminal.close ===== -/

/-- The externally visible steps of SubprocessTerminal.close, in the
order the source can perform them. -/
inductive CloseStep where
  | setClosedFlag
  | terminatePG
  | waitProc
  | killPG
  | closeFd
  | joinReader
deriving DecidableEq, Repr

/-- SubprocessTerminal.close as the ordered trace of its steps. The
booleans select the run: alreadyClosed short-circuits, processAlive
guards the termination block, escalate records that the terminate and
wait attempt raised so SIGKILL is sent, fdPresent guards the descriptor
release, readerAlive guards the reader join. The source closes the
descriptor before joining the reader thread. -/
def backend_close (alreadyClosed processAlive escalate fdPresent readerAlive : Bool) :
    List CloseStep :=
  if alreadyClosed then []
  else
    [CloseStep.setClosedFlag]
      ++ (if processAlive then
            [CloseStep.terminatePG, CloseStep.waitProc]
              ++ (if escalate then [CloseStep.killPG] else [])
          else [])
      ++ (if fdPresent then [CloseStep.closeFd] else [])
      ++ (if readerAlive then [CloseStep.joinReader] else [])

/- ===== concrete fixtures ===== -/

/-- A live session in working directory /w with the default soft timeout
and no previous output. -/
def sess0 : SessionState :=
  { work_dir := "/w".data, no_change_timeout_seconds := 30,
    inited := true, closed := false, prev_output := [] }

/-- A screen snapshot of a completed pwd command: the command echo, its
output, and one complete marker block whose payload carries exit code 0
and working directory /tmp. -/
def screen0 : List Char :=
  ("pwd\n/tmp\n###PS1JSON###\n\"exit_code\": 0, \"working_dir\": \"/tmp\"\n###PS1END###\n").data

/-- A screen snapshot holding a begin marker and a payload truncated by a
mid-write poll: no end marker is present. -/
def screenTrunc : List Char :=
  ("###PS1JSON###\n\"exit_code\": 0").data

/-- Twenty observations with an unchanging non-matching screen, as seen
while a silent long command runs. -/
def obs20 : List PollObs := List.replicate 20 { time := 0, screen := "x".data }

/-- Does the execute call end in the soft timeout branch. -/
def isSoftOutcome : ExecOutcome → Bool
  | .cmd (.softTimeout _) => true
  | _ => false

/- ===== helper lemmas ===== -/

/-- The polling loop returns a soft timeout under an explicit hard timeout
only from an iteration whose elapsed time is still below the deadline,
because the hard timeout branch is tested first. -/
theorem loop_soft_inside_window :
    ∀ (obs : List PollObs) (s : SessionState) (command : List Char)
      (t st lc : Nat) (lo : List Char) (pc : Nat) (r : ExecResult),
      (execute_command_loop s command (some t) st lc lo pc obs).1 = .softTimeout r →
      ∃ o ∈ obs, o.time - st < t := by
  intro obs
  induction obs with
  | nil =>
    intro s command t st lc lo pc r h
    simp [execute_command_loop] at h
  | cons o rest ih =>
    intro s command t st lc lo pc r h
    simp only [execute_command_loop] at h
    split at h
    · simp at h
    · split at h
      · simp at h
      · split at h
        · simp at h
        · split at h
          · obtain ⟨o2, hmem, hlt⟩ := ih _ _ _ _ _ _ _ _ h
            exact ⟨o2, List.mem_cons_of_mem _ hmem, hlt⟩
          · split at h
            · rename_i hhard _ _
              refine ⟨o, List.mem_cons_self _ _, ?_⟩
              have := of_decide_eq_false (Bool.of_not_eq_true hhard)
              omega
            · obtain ⟨o2, hmem, hlt⟩ := ih _ _ _ _ _ _ _ _ h
              exact ⟨o2, List.mem_cons_of_mem _ hmem, hlt⟩

/-- A completed outcome of the polling loop carries a result dict without
working_dir and py_interpreter entries, because _build_result returns
only output and exit_code. -/
theorem loop_completed_no_dirs :
    ∀ (obs : List PollObs) (s : SessionState) (command : List Char)
      (timeout : Option Nat) (st lc : Nat) (lo : List Char) (pc : Nat)
      (r : ExecResult),
      (execute_command_loop s command timeout st lc lo pc obs).1 = .completed r →
      r.working_dir = none ∧ r.py_interpreter = none := by
  intro obs
  induction obs with
  | nil =>
    intro s command timeout st lc lo pc r h
    simp [execute_command_loop] at h
  | cons o rest ih =>
    intro s command timeout st lc lo pc r h
    simp only [execute_command_loop] at h
    split at h
    · simp only [CmdOutcome.completed.injEq] at h
      subst h
      exact ⟨rfl, rfl⟩
    · split at h
      · simp at h
      · split at h
        · simp at h
        · split at h
          · exact ih _ _ _ _ _ _ _ _ h
          · split at h
            · simp at h
            · exact ih _ _ _ _ _ _ _ _ h

/-- When the result dict has no working_dir and no py_interpreter entry,
the tool formatting appends only the exit status line. -/
theorem format_result_only_status (r : ExecResult) (h1 : r.working_dir = none)
    (h2 : r.py_interpreter = none) :
    format_result r = r.output ++ exit_status_line r.exit_code := by
  simp [format_result, h1, h2]

/-- Unfolding equation for deque_append with the let binding resolved. -/
theorem deque_append_unfold (buf : List (List Char)) (chunk : List Char) :
    deque_append buf chunk =
      if BUFFER_CAP < (buf ++ [chunk]).length
      then (buf ++ [chunk]).drop ((buf ++ [chunk]).length - BUFFER_CAP)
      else buf ++ [chunk] := rfl

/-- A deque append never leaves the buffer above its capacity. -/
theorem deque_append_length_le (buf : List (List Char)) (chunk : List Char) :
    (deque_append buf chunk).length ≤ BUFFER_CAP := by
  rw [deque_append_unfold]
  by_cases hcap : BUFFER_CAP < (buf ++ [chunk]).length
  · rw [if_pos hcap, List.length_drop]
    omega
  · rw [if_neg hcap]
    omega

/-- The buffer length stays at or below capacity under any operation
sequence, starting from any buffer already within capacity. -/
theorem apply_buf_ops_length_le :
    ∀ (ops : List BufOp) (buf : List (List Char)),
      buf.length ≤ BUFFER_CAP → (apply_buf_ops buf ops).length ≤ BUFFER_CAP := by
  intro ops
  induction ops with
  | nil => intro buf h; exact h
  | cons op rest ih =>
    intro buf h
    have h2 : (apply_buf_op buf op).length ≤ BUFFER_CAP := by
      cases op with
      | append chunk => exact deque_append_length_le buf chunk
      | read => exact h
      | clear => simp [apply_buf_op]
    simpa [apply_buf_ops, List.foldl] using
      ih (apply_buf_op buf op) h2

/-- Bridge from the boolean prefix test to an explicit decomposition. -/
theorem isPrefixOf_exists_append (a b : List Char) (h : a.isPrefixOf b = true) :
    ∃ t, a ++ t = b :=
  List.isPrefixOf_iff_prefix.mp h

/-- The boolean prefix test accepts a list followed by anything. -/
theorem isPrefixOf_self_append (a t : List Char) : a.isPrefixOf (a ++ t) = true :=
  List.isPrefixOf_iff_prefix.mpr (List.prefix_append a t)

/-- A prefix of s occurs in s. -/
theorem containsSub_of_isPrefixOf (sub s : List Char)
    (h : sub.isPrefixOf s = true) : containsSub sub s = true := by
  cases s with
  | nil =>
    cases sub with
    | nil => rfl
    | cons c t => simp [List.isPrefixOf] at h
  | cons c rest => simp [containsSub, h]

/-- Occurrence in the tail lifts to occurrence in the whole list. -/
theorem containsSub_cons (sub : List Char) (c : Char) (rest : List Char)
    (h : containsSub sub rest = true) : containsSub sub (c :: rest) = true := by
  simp [containsSub, h]

/-- Occurrence in the right part of an append lifts to the whole list. -/
theorem containsSub_append_left (sub a b : List Char)
    (h : containsSub sub b = true) : containsSub sub (a ++ b) = true := by
  induction a with
  | nil => simpa using h
  | cons c t ih => exact containsSub_cons sub c (t ++ b) ih

/-- Occurrence survives undoing a drop. -/
theorem containsSub_of_drop (sub : List Char) :
    ∀ (l : List Char) (n : Nat),
      containsSub sub (l.drop n) = true → containsSub sub l = true := by
  intro l
  induction l with
  | nil => intro n h; simpa using h
  | cons c rest ih =>
    intro n h
    cases n with
    | zero => simpa using h
    | succ m => exact containsSub_cons sub c rest (ih m h)

/-- A successful payload scan decomposes its input as the payload, the end
marker, and the remaining text, in that order. -/
theorem scanPayload_eq :
    ∀ (l p r : List Char), scanPayload l = some (p, r) →
      l = p ++ ps1EndStripped ++ r := by
  intro l
  induction l with
  | nil => intro p r h; simp [scanPayload] at h
  | cons c rest ih =>
    intro p r h
    simp only [scanPayload] at h
    split at h
    · rename_i hend
      obtain ⟨t, ht⟩ := isPrefixOf_exists_append _ _ hend
      simp only [Option.some.injEq, Prod.mk.injEq] at h
      obtain ⟨hp, hr⟩ := h
      subst hp
      rw [← ht, List.nil_append]
      rw [← hr, ← ht, List.drop_left]
    · split at h
      · simp at h
      · rcases hsp : scanPayload rest with _ | ⟨p2, r2⟩ <;> rw [hsp] at h
        · simp at h
        · simp only [Option.some.injEq, Prod.mk.injEq] at h
          obtain ⟨hp, hr⟩ := h
          subst hp
          subst hr
          have hrest := ih p2 r2 hsp
          rw [List.cons_append, List.cons_append, ← hrest]

/-- Every match the scanner reports is a complete begin, payload, end
envelope that occurs contiguously in the scanned text. -/
theorem scanMatchesFuel_envelope :
    ∀ (fuel : Nat) (atStart : Bool) (text : List Char) (m : Ps1Match),
      m ∈ scanMatchesFuel fuel atStart text →
      m.full = ps1BeginStripped ++ m.payload ++ ps1EndStripped ∧
        containsSub m.full text = true := by
  intro fuel
  induction fuel with
  | zero => intro atStart text m hm; simp [scanMatchesFuel] at hm
  | succ f ih =>
    intro atStart text m hm
    cases text with
    | nil => simp [scanMatchesFuel] at hm
    | cons c rest =>
      simp only [scanMatchesFuel] at hm
      split at hm
      · rename_i hcond
        obtain ⟨hstart, hpre⟩ := Bool.and_eq_true _ _ ▸ hcond
        obtain ⟨t, ht⟩ := isPrefixOf_exists_append _ _ hpre
        rcases hsp : scanPayload ((c :: rest).drop ps1BeginStripped.length)
            with _ | ⟨payload, after⟩ <;> rw [hsp] at hm
        · obtain ⟨h1, h2⟩ := ih _ _ _ hm
          exact ⟨h1, containsSub_cons m.full c rest h2⟩
        · have hdropt : (c :: rest).drop ps1BeginStripped.length = t := by
            rw [← ht, List.drop_left]
          have htparts : t = payload ++ ps1EndStripped ++ after :=
            scanPayload_eq _ payload after (by rw [← hdropt, hsp])
          have htext : c :: rest =
              (ps1BeginStripped ++ payload ++ ps1EndStripped) ++ after := by
            rw [← ht, htparts]
            simp [List.append_assoc]
          rcases List.mem_cons.mp hm with hhead | htail
          · subst hhead
            refine ⟨rfl, ?_⟩
            rw [htext]
            exact containsSub_of_isPrefixOf _ _ (isPrefixOf_self_append _ _)
          · obtain ⟨h1, h2⟩ := ih _ _ _ htail
            refine ⟨h1, ?_⟩
            rw [htext]
            exact containsSub_append_left _ _ _ h2
      · obtain ⟨h1, h2⟩ := ih _ _ _ hm
        exact ⟨h1, containsSub_cons m.full c rest h2⟩

/-- If the scanner reports any match, the end marker occurs in the text:
a text with no end marker yields zero matches. -/
theorem scanMatchesFuel_end_marker :
    ∀ (fuel : Nat) (atStart : Bool) (text : List Char),
      scanMatchesFuel fuel atStart text ≠ [] →
      containsSub ps1EndStripped text = true := by
  intro fuel
  induction fuel with
  | zero => intro atStart text h; simp [scanMatchesFuel] at h
  | succ f ih =>
    intro atStart text h
    cases text with
    | nil => simp [scanMatchesFuel] at h
    | cons c rest =>
      simp only [scanMatchesFuel] at h
      split at h
      · rename_i hcond
        obtain ⟨hstart, hpre⟩ := Bool.and_eq_true _ _ ▸ hcond
        rcases hsp : scanPayload ((c :: rest).drop ps1BeginStripped.length)
            with _ | ⟨payload, after⟩ <;> rw [hsp] at h
        · exact containsSub_cons _ c rest (ih _ _ h)
        · have hparts := scanPayload_eq _ payload after hsp
          have : containsSub ps1EndStripped
              ((c :: rest).drop ps1BeginStripped.length) = true := by
            rw [hparts, List.append_assoc]
            exact containsSub_append_left ps1EndStripped payload
              (ps1EndStripped ++ after)
              (containsSub_of_isPrefixOf _ _ (isPrefixOf_self_append _ _))
          exact containsSub_of_drop _ (c :: rest) _ this
      · exact containsSub_cons _ c rest (ih _ _ h)

/- ===== claims ===== -/

/-- C1: the claim states that with an explicit hard timeout the soft
no-change timeout can never cause a SOFT_TIMEOUT return. The code checks
the soft timeout on every poll regardless: this run supplies a hard
timeout of 100 seconds, the output never changes, and the call returns
the soft timeout once the 30 second no-change window elapses. -/
theorem C1_counterexample :
    isSoftOutcome (execute sess0 false "sleep 1000".data false (some 100) 0
      [{ time := 0, screen := "x".data }, { time := 30, screen := "x".data }]).1 = true := by
  decide

/-- C1 amended: the soft no-change timeout is evaluated on every call,
also when an explicit hard timeout t was supplied; a SOFT_TIMEOUT return
under an explicit hard timeout is possible but always happens strictly
before the hard deadline, because the hard check runs first on each
poll. -/
theorem C1_soft_check_unconditional (s : SessionState) (d : Bool)
    (command : List Char) (is_input : Bool) (t st : Nat) (obs : List PollObs)
    (h : isSoftOutcome (execute s d command is_input (some t) st obs).1 = true) :
    ∃ o ∈ obs, o.time - st < t := by
  simp only [execute] at h
  split at h
  · simp [isSoftOutcome] at h
  · split at h
    · simp [isSoftOutcome] at h
    · split at h
      · simp [isSoftOutcome] at h
      · split at h
        · simp [isSoftOutcome] at h
        · rcases hc : (execute_command s command (some t) st obs).1 with r | r | r | _ | _ <;>
            rw [hc] at h <;> simp [isSoftOutcome] at h
          exact loop_soft_inside_window obs s command t st st [] 0 r hc

/-- C1 witness: the amended theorem applied to the counterexample run. -/
theorem C1_soft_check_unconditional_witness :
    ∃ o ∈ [PollObs.mk 0 "x".data, PollObs.mk 30 "x".data], o.time - 0 < 100 :=
  C1_soft_check_unconditional sess0 false ("sleep 1000".data) false 100 0
    [{ time := 0, screen := "x".data }, { time := 30, screen := "x".data }] (by decide)

/-- C2: the claim states that a completed command returns cleaned output
followed by working directory and interpreter annotations parsed from the
last marker block, plus the status line. In this completed run the marker
block carries working directory /tmp, yet the result dict has no
working_dir entry and the formatted payload carries no working directory
line, only the status line. -/
theorem C2_counterexample :
    (execute sess0 false "pwd".data false none 0 [{ time := 0, screen := screen0 }]).1 =
      ExecOutcome.cmd (CmdOutcome.completed
        { output := "/tmp".data, exit_code := 0, working_dir := none,
          py_interpreter := none }) ∧
    (from_ps1_match ((matches_ps1_metadata screen0).getLastD ⟨[], []⟩)).working_dir =
      some ("/tmp".data) ∧
    containsSub ("[Current working directory:".data)
      (format_result { output := "/tmp".data, exit_code := 0, working_dir := none,
                       py_interpreter := none }) = false := by
  decide

/-- C2 amended: for every command that completes, the returned payload is
the cleaned output followed only by the completion or failure status line
derived from the parsed exit code; the working directory and interpreter
annotations are not appended, because _build_result drops both fields
from the result dict. -/
theorem C2_completed_payload (s : SessionState) (d : Bool) (command : List Char)
    (timeout : Option Nat) (st : Nat) (obs : List PollObs) (r : ExecResult)
    (h : (execute s d command false timeout st obs).1 = .cmd (.completed r)) :
    r.working_dir = none ∧ r.py_interpreter = none ∧
      format_result r = r.output ++ exit_status_line r.exit_code := by
  simp only [execute] at h
  split at h
  · simp at h
  · split at h
    · simp at h
    · split at h
      · simp at h
      · split at h
        · simp at h
        · simp only [execute_command, ExecOutcome.cmd.injEq] at h
          obtain ⟨h1, h2⟩ := loop_completed_no_dirs obs s command timeout st st [] 0 r h
          exact ⟨h1, h2, format_result_only_status r h1 h2⟩

/-- C2 witness: the amended theorem applied to the concrete completed
pwd run. -/
theorem C2_completed_payload_witness :
    ({ output := "/tmp".data, exit_code := 0, working_dir := none,
       py_interpreter := none } : ExecResult).working_dir = none ∧
    ({ output := "/tmp".data, exit_code := 0, working_dir := none,
       py_interpreter := none } : ExecResult).py_interpreter = none ∧
    format_result { output := "/tmp".data, exit_code := 0, working_dir := none,
                    py_interpreter := none } =
      ("/tmp".data) ++ exit_status_line 0 :=
  C2_completed_payload sess0 false ("pwd".data) none 0
    [{ time := 0, screen := screen0 }]
    { output := "/tmp".data, exit_code := 0, working_dir := none,
      py_interpreter := none } (by decide)

/-- C3: the claim is right about the intended hard timeout behavior and
the code contradicts it. First conjunct: a hard timeout short enough to
fire before the 20th poll returns the accumulated output with the timeout
annotation, exit code -1, the session state untouched, and only
clear, send and read effects, so no signal at all. Second conjunct: with
a 15 second hard timeout still pending at the 20th poll, the loop
reaches the every-20th-poll debug block and raises NameError, because
session.py line 209 evaluates CMD_OUTPUT_PS1_BEGIN without importing it,
so the call never returns the accumulated output. -/
theorem C3_hard_timeout_vs_name_error :
    execute sess0 false "sleep 5".data false (some 5) 0
        [{ time := 0, screen := "x".data }, { time := 5, screen := "x".data }] =
      (.cmd (.hardTimeout { output := "x".data ++ timed_out_note 5, exit_code := -1,
                            working_dir := some sess0.work_dir,
                            py_interpreter := none }),
       sess0, [.clear_screen, .send_keys ("sleep 5".data) true,
               .read_screen, .read_screen]) ∧
    execute sess0 false "sleep 30".data false (some 15) 0 obs20 =
      (.cmd .nameError, sess0,
       .clear_screen :: .send_keys ("sleep 30".data) true ::
         List.replicate 20 .read_screen) := by
  decide

/-- C4: a command recognized as a special key bypasses the normal flow,
never enters polling (the result does not depend on the observation
stream) and returns the fixed status string with exit code 130 for
interrupt, 147 for suspend, and 0 for end-of-input. -/
theorem C4_special_keys_bypass (s : SessionState) (d : Bool) (command : List Char)
    (is_input : Bool) (timeout : Option Nat) (st : Nat) (obs : List PollObs)
    (hi : s.inited = true) (hc : s.closed = false)
    (hk : is_special_key command = true) :
    (upperStrip command = "C-C".data →
      execute s d command is_input timeout st obs =
        (.immediate { output := "Process interrupted (Ctrl+C)".data, exit_code := 130,
                      working_dir := some s.work_dir, py_interpreter := none },
         s, [.interruptSig])) ∧
    (upperStrip command = "C-Z".data →
      execute s d command is_input timeout st obs =
        (.immediate { output := "Process suspended (Ctrl+Z)".data, exit_code := 147,
                      working_dir := some s.work_dir, py_interpreter := none },
         s, [.send_keys ("\x1a".data) false])) ∧
    (upperStrip command = "C-D".data →
      execute s d command is_input timeout st obs =
        (.immediate { output := "EOF sent (Ctrl+D)".data, exit_code := 0,
                      working_dir := some s.work_dir, py_interpreter := none },
         s, [.send_keys ("\x04".data) false])) := by
  refine ⟨fun h => ?_, fun h => ?_, fun h => ?_⟩ <;>
    simp [execute, hi, hc, hk, handle_special_key, h]

/-- C4 witness: the suspend key on a live session. -/
theorem C4_special_keys_bypass_witness :
    execute sess0 false ("C-z".data) false none 0 [] =
      (.immediate { output := "Process suspended (Ctrl+Z)".data, exit_code := 147,
                    working_dir := some sess0.work_dir, py_interpreter := none },
       sess0, [.send_keys ("\x1a".data) false]) :=
  (C4_special_keys_bypass sess0 false ("C-z".data) false none 0 []
    rfl rfl (by decide)).2.1 (by decide)

/-- C5: matches are only reported for complete begin, payload, end
envelopes occurring contiguously in the output (first conjunct); a text
holding no end marker, such as a payload truncated by a mid-write poll,
yields zero matches (second conjunct); and a polling run all of whose
screens lack the end marker is never reported to the caller as a
completion, the controller keeps polling instead (third conjunct). -/
theorem C5_partial_marker_blocks (text : List Char) :
    (∀ m ∈ matches_ps1_metadata text,
       m.full = ps1BeginStripped ++ m.payload ++ ps1EndStripped ∧
         containsSub m.full text = true) ∧
    (containsSub ps1EndStripped text = false →
       matches_ps1_metadata text = []) ∧
    (∀ (s : SessionState) (command : List Char) (timeout : Option Nat)
       (st lc : Nat) (lo : List Char) (pc : Nat) (obs : List PollObs),
       (∀ o ∈ obs, containsSub ps1EndStripped o.screen = false) →
       ∀ r : ExecResult,
         (execute_command_loop s command timeout st lc lo pc obs).1 ≠
           .completed r) := by
  refine ⟨fun m hm => scanMatchesFuel_envelope _ _ _ m hm, fun hno => ?_, ?_⟩
  · by_contra hne
    exact absurd (scanMatchesFuel_end_marker _ _ _ hne) (by simp [hno])
  · intro s command timeout st lc lo pc obs
    clear text
    induction obs generalizing s st lc lo pc with
    | nil =>
      intro hscreens r
      simp [execute_command_loop]
    | cons o rest ih =>
      intro hscreens r
      have hms : matches_ps1_metadata o.screen = [] := by
        by_contra hne
        exact absurd (scanMatchesFuel_end_marker _ _ _ hne)
          (by simp [hscreens o (List.mem_cons_self o rest)])
      have hrest : ∀ o2 ∈ rest, containsSub ps1EndStripped o2.screen = false :=
        fun o2 h2 => hscreens o2 (List.mem_cons_of_mem o h2)
      simp only [execute_command_loop]
      split
      · rename_i hcontra
        exact absurd hms hcontra
      · split
        · simp
        · split
          · simp
          · split
            · exact ih _ _ _ _ _ hrest r
            · split
              · simp
              · exact ih _ _ _ _ _ hrest r

/-- C5 witness: the claim theorem applied to the truncated marker screen
and a one-observation polling run over it. -/
theorem C5_partial_marker_blocks_witness :
    matches_ps1_metadata screenTrunc = [] ∧
    (execute_command_loop sess0 ("cat f".data) none 0 0 [] 0
        [{ time := 0, screen := screenTrunc }]).1 ≠
      .completed { output := [], exit_code := 0, working_dir := none,
                   py_interpreter := none } :=
  ⟨(C5_partial_marker_blocks screenTrunc).2.1 (by decide),
   (C5_partial_marker_blocks screenTrunc).2.2 sess0 ("cat f".data) none 0 0 [] 0
     [{ time := 0, screen := screenTrunc }] (by decide) _⟩

/-- C6: starting from the empty buffer, any sequence of reader appends,
reads and clears leaves at most HISTORY_LIMIT + 50 chunks in the buffer,
and an append to a full buffer evicts exactly the oldest chunk. -/
theorem C6_buffer_bounded :
    (∀ ops : List BufOp, (apply_buf_ops [] ops).length ≤ HISTORY_LIMIT + 50) ∧
    (∀ (buf : List (List Char)) (chunk : List Char),
      buf.length = HISTORY_LIMIT + 50 →
      deque_append buf chunk = buf.drop 1 ++ [chunk]) := by
  constructor
  · intro ops
    exact apply_buf_ops_length_le ops [] (by simp)
  · intro buf chunk h
    rw [deque_append_unfold]
    have hL : (buf ++ [chunk]).length = HISTORY_LIMIT + 50 + 1 := by
      rw [List.length_append, h]
      rfl
    rw [if_pos (by rw [hL]; simp only [BUFFER_CAP]; omega), hL]
    have h1 : HISTORY_LIMIT + 50 + 1 - BUFFER_CAP = 1 := by
      simp only [BUFFER_CAP]
      omega
    rw [h1, List.drop_append_of_le_length (by omega)]

/-- C6 witness: the bound on a small operation sequence and the eviction
equation on a concrete full buffer. -/
theorem C6_buffer_bounded_witness :
    (apply_buf_ops [] [BufOp.append ("a".data), BufOp.read, BufOp.clear,
                       BufOp.append ("b".data)]).length ≤ HISTORY_LIMIT + 50 ∧
    deque_append (List.replicate (HISTORY_LIMIT + 50) []) ("c".data) =
      (List.replicate (HISTORY_LIMIT + 50) ([] : List Char)).drop 1 ++ ["c".data] :=
  ⟨C6_buffer_bounded.1 _, C6_buffer_bounded.2 _ _ (by simp)⟩

/-- C7: execute on a session that is not initialized, or on one that was
closed, returns the corresponding RuntimeError immediately: no input is
sent to the backend, no polling happens, and the session state is
returned unchanged. -/
theorem C7_dead_session_error (s : SessionState) (d : Bool) (command : List Char)
    (is_input : Bool) (timeout : Option Nat) (st : Nat) (obs : List PollObs) :
    (s.inited = false →
      execute s d command is_input timeout st obs =
        (.error "Terminal session not initialized".data, s, [])) ∧
    (s.inited = true → s.closed = true →
      execute s d command is_input timeout st obs =
        (.error "Terminal session is closed".data, s, [])) := by
  constructor
  · intro h; simp [execute, h]
  · intro h1 h2; simp [execute, h1, h2]

/-- C7 witness: an uninitialized session and a closed session, each
rejecting a command without touching any state. -/
theorem C7_dead_session_error_witness :
    execute { work_dir := "/w".data, no_change_timeout_seconds := 30,
              inited := false, closed := false, prev_output := [] }
        false ("ls".data) false none 0 [] =
      (.error "Terminal session not initialized".data,
       { work_dir := "/w".data, no_change_timeout_seconds := 30,
         inited := false, closed := false, prev_output := [] }, []) ∧
    execute { work_dir := "/w".data, no_change_timeout_seconds := 30,
              inited := true, closed := true, prev_output := [] }
        false ("ls".data) false none 0 [] =
      (.error "Terminal session is closed".data,
       { work_dir := "/w".data, no_change_timeout_seconds := 30,
         inited := true, closed := true, prev_output := [] }, []) :=
  ⟨(C7_dead_session_error _ false ("ls".data) false none 0 []).1 rfl,
   (C7_dead_session_error _ false ("ls".data) false none 0 []).2 rfl rfl⟩

/-- C8: the claim states close joins the background reader before
releasing the pseudoterminal descriptor. In this concrete run of
SubprocessTerminal.close with a live process, a held descriptor and a
live reader, the descriptor release step comes before the reader join
step. -/
theorem C8_counterexample :
    backend_close false true false true true =
      [CloseStep.setClosedFlag, CloseStep.terminatePG, CloseStep.waitProc,
       CloseStep.closeFd, CloseStep.joinReader] ∧
    (backend_close false true false true true).indexOf CloseStep.closeFd <
      (backend_close false true false true true).indexOf CloseStep.joinReader := by
  decide

/-- C8 amended: in every run of close the order is: set the closed flag
first, then terminate the process group and wait (escalating to a
forceful kill if needed), then release the pseudoterminal descriptor,
and join the background reader last - the descriptor is released before
the reader is joined, not after. -/
theorem C8_close_order : ∀ (p e f r : Bool),
    ((backend_close false p e f r).head? = some CloseStep.setClosedFlag) ∧
    (CloseStep.terminatePG ∈ backend_close false p e f r →
      CloseStep.closeFd ∈ backend_close false p e f r →
      (backend_close false p e f r).indexOf CloseStep.terminatePG <
        (backend_close false p e f r).indexOf CloseStep.closeFd) ∧
    (CloseStep.closeFd ∈ backend_close false p e f r →
      CloseStep.joinReader ∈ backend_close false p e f r →
      (backend_close false p e f r).indexOf CloseStep.closeFd <
        (backend_close false p e f r).indexOf CloseStep.joinReader) := by
  decide

/-- C8 witness: the ordering facts on the run with every step present. -/
theorem C8_close_order_witness :
    (backend_close false true true true true).indexOf CloseStep.terminatePG <
      (backend_close false true true true true).indexOf CloseStep.closeFd ∧
    (backend_close false true true true true).indexOf CloseStep.closeFd <
      (backend_close false true true true true).indexOf CloseStep.joinReader :=
  ⟨(C8_close_order true true true true).2.1 (by decide) (by decide),
   (C8_close_order true true true true).2.2 (by decide) (by decide)⟩

/-- C9: execute of the interrupt key returns exit code 130 with the fixed
interrupted message whatever the deliverability of the signal was: the
boolean d the backend interrupt returns is quantified here and the result
is the same constant for both values, so the controller discards it. -/
theorem C9_interrupt_unconditional (s : SessionState) (d : Bool)
    (is_input : Bool) (timeout : Option Nat) (st : Nat) (obs : List PollObs)
    (hi : s.inited = true) (hc : s.closed = false) :
    execute s d ("C-c".data) is_input timeout st obs =
      (.immediate { output := "Process interrupted (Ctrl+C)".data, exit_code := 130,
                    working_dir := some s.work_dir, py_interpreter := none },
       s, [.interruptSig]) := by
  have hk : is_special_key ("C-c".data) = true := by decide
  have hu : upperStrip ("C-c".data) = "C-C".data := by decide
  simp [execute, hi, hc, hk, handle_special_key, hu]

/-- C9 witness: the interrupt key with an undeliverable signal still
reports exit code 130 and the interrupted message. -/
theorem C9_interrupt_unconditional_witness :
    execute sess0 false ("C-c".data) false none 0 [] =
      (.immediate { output := "Process interrupted (Ctrl+C)".data, exit_code := 130,
                    working_dir := some sess0.work_dir, py_interpreter := none },
       sess0, [.interruptSig]) :=
  C9_interrupt_unconditional sess0 false false none 0 [] rfl rfl

/-- C10: a stripped three character command starting with C- that is not
C-c, C-z or C-d under case-insensitive comparison returns exit code 1
with the unknown special key message built from the original command, and
performs no backend effect: nothing is written and no signal is sent. -/
theorem C10_unknown_special_key (s : SessionState) (d : Bool) (command : List Char)
    (is_input : Bool) (timeout : Option Nat) (st : Nat) (obs : List PollObs)
    (hi : s.inited = true) (hc : s.closed = false)
    (hk : is_special_key command = true)
    (h1 : upperStrip command ≠ "C-C".data)
    (h2 : upperStrip command ≠ "C-Z".data)
    (h3 : upperStrip command ≠ "C-D".data) :
    execute s d command is_input timeout st obs =
      (.immediate { output := "Unknown special key: ".data ++ command, exit_code := 1,
                    working_dir := some s.work_dir, py_interpreter := none },
       s, []) := by
  simp [execute, hi, hc, hk, handle_special_key, h1, h2, h3]

/-- C10 witness: the unrecognized key C-x. -/
theorem C10_unknown_special_key_witness :
    execute sess0 false ("C-x".data) false none 0 [] =
      (.immediate { output := "Unknown special key: ".data ++ "C-x".data,
                    exit_code := 1, working_dir := some sess0.work_dir,
                    py_interpreter := none }, sess0, []) :=
  C10_unknown_special_key sess0 false ("C-x".data) false none 0 [] rfl rfl
    (by decide) (by decide) (by decide) (by decide)

end CrowTerminal
